import Mathlib

/-!
Verification of the pairwise pre/post comparison pipeline of
`src/streamlit_app.py` (lines 55–96): validation of the selected
variable-name lists, per-pair row cleaning (`dropna`), the paired t-test
call, and assembly of the per-pair result records and skip warnings.

Data values are modelled as `Option ℚ` (a numeric cell or a missing
value); the floating-point scalars produced by the statistical routine
are modelled by `PFloat` (a real value or `NaN`).  The statistical
routine `scipy.stats.ttest_rel` is not part of the repository; it is
modelled from the spec's documented contract (§4.1), parametrised by an
abstract two-sided Student-t tail function `tail`.
-/

namespace App

/-- A dataset: named columns of numeric-or-missing cells (the pandas
dataframe `df`).  Rows correspond positionally across columns. -/
abbrev Dataset := List (String × List (Option ℚ))

/-- Column lookup: `df[name]`; `none` models the `KeyError` case of a
name that is not a column of the dataset. -/
def getCol (df : Dataset) (name : String) : Option (List (Option ℚ)) :=
  (df.find? (fun c => c.1 == name)).map (fun c => c.2)

/-- Line 72, `df[[pre_var, post_var]].dropna()`: pair the two columns
row-wise and keep exactly the rows where both values are present. -/
def cleanPair (pre post : List (Option ℚ)) : List (ℚ × ℚ) :=
  (pre.zip post).filterMap fun r =>
    match r with
    | (some x, some y) => some (x, y)
    | _ => none

/-- pandas `Series.mean()`: arithmetic mean of a column. -/
def qmean (xs : List ℚ) : ℚ := xs.sum / xs.length

/-- pandas sample variance with `ddof = 1` (the `n − 1` denominator),
the square of `Series.std()`. -/
def sampleVar (xs : List ℚ) : ℚ :=
  (xs.map fun x => (x - qmean xs) ^ 2).sum / ((xs.length : ℚ) - 1)

/-- pandas `Series.std()`: sample standard deviation. -/
noncomputable def sampleStd (xs : List ℚ) : ℝ := Real.sqrt (sampleVar xs)

/-- A floating-point scalar as observed by the pipeline: a real value
or `NaN`. -/
inductive PFloat where
  | nan : PFloat
  | val : ℝ → PFloat

/-- Semantic strict order against a real bound: every comparison with
`NaN` is false, as for Python floats. -/
def PFloat.Lt (x : PFloat) (c : ℝ) : Prop :=
  match x with
  | .nan => False
  | .val v => v < c

open Classical in
/-- Boolean strict order on such scalars (the `p_value < 0.05` test of
line 95); comparisons against `NaN` yield `false`. -/
noncomputable def PFloat.lt (x : PFloat) (c : ℝ) : Bool :=
  match x with
  | .nan => false
  | .val v => decide (v < c)

/-- §4.1 step 3: the elementwise difference `d = pre − post` over the
cleaned columns. -/
def diffs (xs ys : List ℚ) : List ℚ := List.zipWith (fun a b => a - b) xs ys

/-- §4.1 step 3, the spec's formula for the paired-difference statistic:
`t = mean(d) / (stddev(d) / sqrt n)`. -/
noncomputable def specTStat (xs ys : List ℚ) : ℝ :=
  (qmean (diffs xs ys) : ℝ) / (sampleStd (diffs xs ys) / Real.sqrt ((diffs xs ys).length : ℝ))

/-- Modelled from the spec: `scipy.stats.ttest_rel` (line 83) is an
external library routine absent from the repository.  Per §4.1 it
computes the paired statistic `t = mean(d) / (stddev(d) / sqrt n)` and
the two-sided Student-t tail probability at `t` with `n − 1` degrees of
freedom (here an abstract function `tail`); in the degenerate
zero-variance case `stddev(d) = 0` it deterministically emits `NaN` for
both outputs (the spec's documented NaN policy, §4.1 step 3). -/
noncomputable def ttest_rel (tail : ℝ → ℕ → ℝ) (pre post : List ℚ) : PFloat × PFloat :=
  let d := (pre.zip post).map fun r => r.1 - r.2
  if sampleVar d = 0 then (PFloat.nan, PFloat.nan)
  else
    let t : ℝ := (qmean d : ℝ) / (Real.sqrt (sampleVar d : ℝ) / Real.sqrt (d.length : ℝ))
    (PFloat.val t, PFloat.val (tail t (d.length - 1)))

/-- One row of the results table built on lines 86–96. -/
structure CompResult where
  preName : String
  postName : String
  preMean : ℚ
  postMean : ℚ
  preStd : ℝ
  postStd : ℝ
  tStat : PFloat
  pValue : PFloat
  signif : String

/-- One entry of the skipped-pairs side channel (the warning of
line 76). -/
structure SkipEntry where
  preName : String
  postName : String
  reason : String

/-- Modelled from the spec: the reason string reported for a pair with
fewer than 2 paired observations; the source renders it as a Korean UI
warning naming the pair (line 76). -/
def insufficientMsg : String := "insufficient paired observations"

/-- The error taxonomy of §7: structural mismatch of the name lists
(line 62) and a name that is not a column of the dataset (line 72). -/
inductive CompareError where
  | invalidInput : CompareError
  | unknownColumn : String → CompareError

/-- Line 95: the significance label obtained by comparing the p-value
against the fixed threshold 0.05. -/
noncomputable def sigLabel (pv : PFloat) : String :=
  if PFloat.lt pv 0.05 then "p < .05" else "N.S."

/-- The loop body of lines 69–96 for one `(pre_var, post_var)` pair:
select and clean the two columns, skip the pair when fewer than 2
paired observations remain, otherwise run the paired t-test and build
the result record. -/
noncomputable def analyzePair (tail : ℝ → ℕ → ℝ) (df : Dataset) (preVar postVar : String) :
    Except CompareError (CompResult ⊕ SkipEntry) :=
  match getCol df preVar, getCol df postVar with
  | none, _ => .error (.unknownColumn preVar)
  | some _, none => .error (.unknownColumn postVar)
  | some pre, some post =>
    let temp := cleanPair pre post
    if temp.length < 2 then
      .ok (.inr ⟨preVar, postVar, insufficientMsg⟩)
    else
      let preData := temp.map Prod.fst
      let postData := temp.map Prod.snd
      let tp := ttest_rel tail preData postData
      .ok (.inl ⟨preVar, postVar, qmean preData, qmean postData,
        sampleStd preData, sampleStd postData, tp.1, tp.2, sigLabel tp.2⟩)

/-- The pipeline's output: the results list and the skipped-pairs side
channel, both in input order. -/
structure CompareOutput where
  results : List CompResult
  skipped : List SkipEntry

/-- The `for pre_var, post_var in zip(pre_vars, post_vars)` loop of
lines 69–96, collecting results and skips in input order; a column
error aborts the whole run. -/
noncomputable def analyzeAll (tail : ℝ → ℕ → ℝ) (df : Dataset) :
    List (String × String) → Except CompareError CompareOutput
  | [] => .ok ⟨[], []⟩
  | (p, q) :: rest => do
    let o ← analyzePair tail df p q
    let out ← analyzeAll tail df rest
    match o with
    | .inl r => .ok ⟨r :: out.results, out.skipped⟩
    | .inr s => .ok ⟨out.results, s :: out.skipped⟩

/-- The pipeline `compare` of §4.1, i.e. the analysis block of
lines 62–96: reject empty or unequal-length name lists (line 62), then
analyze the pairs positionally. -/
noncomputable def compare (tail : ℝ → ℕ → ℝ) (df : Dataset)
    (preNames postNames : List String) : Except CompareError CompareOutput :=
  if preNames = [] ∨ postNames = [] ∨ preNames.length ≠ postNames.length then
    .error .invalidInput
  else
    analyzeAll tail df (preNames.zip postNames)

end App

namespace App

/-! ### Helper lemmas (shared infrastructure, not claim theorems) -/

lemma zip_map_sub_eq_diffs (xs ys : List ℚ) :
    ((xs.zip ys).map fun r => r.1 - r.2) = diffs xs ys := by
  induction xs generalizing ys with
  | nil => simp [diffs]
  | cons x xs ih =>
    cases ys with
    | nil => simp [diffs]
    | cons y ys => simp [diffs, List.zip_cons_cons, ih]

lemma ttest_rel_var_zero (tail : ℝ → ℕ → ℝ) (pre post : List ℚ)
    (h : sampleVar (diffs pre post) = 0) :
    ttest_rel tail pre post = (PFloat.nan, PFloat.nan) := by
  rw [ttest_rel]
  simp only [zip_map_sub_eq_diffs]
  rw [if_pos h]

lemma ttest_rel_var_ne_zero (tail : ℝ → ℕ → ℝ) (pre post : List ℚ)
    (h : sampleVar (diffs pre post) ≠ 0) :
    ttest_rel tail pre post =
      (PFloat.val (specTStat pre post),
       PFloat.val (tail (specTStat pre post) ((diffs pre post).length - 1))) := by
  rw [ttest_rel]
  simp only [zip_map_sub_eq_diffs]
  rw [if_neg h]
  rfl

lemma analyzePair_result (tail : ℝ → ℕ → ℝ) (df : Dataset) (p q : String)
    (pre post : List (Option ℚ))
    (hp : getCol df p = some pre) (hq : getCol df q = some post)
    (hn : ¬ (cleanPair pre post).length < 2) :
    analyzePair tail df p q =
      .ok (.inl ⟨p, q,
        qmean ((cleanPair pre post).map Prod.fst),
        qmean ((cleanPair pre post).map Prod.snd),
        sampleStd ((cleanPair pre post).map Prod.fst),
        sampleStd ((cleanPair pre post).map Prod.snd),
        (ttest_rel tail ((cleanPair pre post).map Prod.fst) ((cleanPair pre post).map Prod.snd)).1,
        (ttest_rel tail ((cleanPair pre post).map Prod.fst) ((cleanPair pre post).map Prod.snd)).2,
        sigLabel (ttest_rel tail ((cleanPair pre post).map Prod.fst) ((cleanPair pre post).map Prod.snd)).2⟩) := by
  rw [analyzePair, hp, hq]
  simp only [if_neg hn]

lemma analyzePair_skip (tail : ℝ → ℕ → ℝ) (df : Dataset) (p q : String)
    (pre post : List (Option ℚ))
    (hp : getCol df p = some pre) (hq : getCol df q = some post)
    (hn : (cleanPair pre post).length < 2) :
    analyzePair tail df p q = .ok (.inr ⟨p, q, insufficientMsg⟩) := by
  rw [analyzePair, hp, hq]
  simp only [if_pos hn]

lemma analyzePair_err_pre (tail : ℝ → ℕ → ℝ) (df : Dataset) (p q : String)
    (hp : getCol df p = none) :
    analyzePair tail df p q = .error (.unknownColumn p) := by
  rw [analyzePair, hp]

lemma analyzePair_err_post (tail : ℝ → ℕ → ℝ) (df : Dataset) (p q : String)
    (pre : List (Option ℚ)) (hp : getCol df p = some pre) (hq : getCol df q = none) :
    analyzePair tail df p q = .error (.unknownColumn q) := by
  rw [analyzePair, hp, hq]

lemma analyzePair_isOk (tail : ℝ → ℕ → ℝ) (df : Dataset) (p q : String)
    (hp : (getCol df p).isSome) (hq : (getCol df q).isSome) :
    ∃ o, analyzePair tail df p q = .ok o := by
  obtain ⟨pre, hp'⟩ := Option.isSome_iff_exists.mp hp
  obtain ⟨post, hq'⟩ := Option.isSome_iff_exists.mp hq
  by_cases hn : (cleanPair pre post).length < 2
  · exact ⟨_, analyzePair_skip tail df p q pre post hp' hq' hn⟩
  · exact ⟨_, analyzePair_result tail df p q pre post hp' hq' hn⟩

lemma analyzePair_inl_fields (tail : ℝ → ℕ → ℝ) (df : Dataset) (p q : String)
    (r : CompResult) (h : analyzePair tail df p q = .ok (.inl r)) :
    r.preName = p ∧ r.postName = q ∧ r.signif = sigLabel r.pValue := by
  cases hgp : getCol df p with
  | none =>
    rw [analyzePair_err_pre tail df p q hgp] at h
    cases h
  | some pre =>
    cases hgq : getCol df q with
    | none =>
      rw [analyzePair_err_post tail df p q pre hgp hgq] at h
      cases h
    | some post =>
      by_cases hn : (cleanPair pre post).length < 2
      · rw [analyzePair_skip tail df p q pre post hgp hgq hn] at h
        cases h
      · rw [analyzePair_result tail df p q pre post hgp hgq hn] at h
        injection h with h
        injection h with h
        subst h
        exact ⟨rfl, rfl, rfl⟩

lemma analyzePair_inl_of_cols (tail : ℝ → ℕ → ℝ) (df : Dataset) (p q : String)
    (pre post : List (Option ℚ)) (r : CompResult)
    (hp : getCol df p = some pre) (hq : getCol df q = some post)
    (h : analyzePair tail df p q = .ok (.inl r)) :
    ¬ (cleanPair pre post).length < 2 := by
  intro hn
  rw [analyzePair_skip tail df p q pre post hp hq hn] at h
  cases h

lemma analyzeAll_cons_result (tail : ℝ → ℕ → ℝ) (df : Dataset) (p q : String)
    (rest : List (String × String)) (r : CompResult) (out : CompareOutput)
    (h1 : analyzePair tail df p q = .ok (.inl r))
    (h2 : analyzeAll tail df rest = .ok out) :
    analyzeAll tail df ((p, q) :: rest) = .ok ⟨r :: out.results, out.skipped⟩ := by
  rw [analyzeAll]
  rw [h1, h2]
  rfl

lemma analyzeAll_cons_skip (tail : ℝ → ℕ → ℝ) (df : Dataset) (p q : String)
    (rest : List (String × String)) (s : SkipEntry) (out : CompareOutput)
    (h1 : analyzePair tail df p q = .ok (.inr s))
    (h2 : analyzeAll tail df rest = .ok out) :
    analyzeAll tail df ((p, q) :: rest) = .ok ⟨out.results, s :: out.skipped⟩ := by
  rw [analyzeAll]
  rw [h1, h2]
  rfl

lemma length_filterMap_sum (l : List (CompResult ⊕ SkipEntry)) :
    (l.filterMap Sum.getLeft?).length + (l.filterMap Sum.getRight?).length = l.length := by
  induction l with
  | nil => rfl
  | cons o l ih =>
    cases o with
    | inl r =>
      simp only [List.filterMap_cons, Sum.getLeft?_inl, Sum.getRight?_inl, List.length_cons]
      omega
    | inr s =>
      simp only [List.filterMap_cons, Sum.getLeft?_inr, Sum.getRight?_inr, List.length_cons]
      omega

lemma analyzeAll_ok_of_cols (tail : ℝ → ℕ → ℝ) (df : Dataset)
    (pairs : List (String × String))
    (h : ∀ pq ∈ pairs, (getCol df pq.1).isSome ∧ (getCol df pq.2).isSome) :
    ∃ outcomes : List (CompResult ⊕ SkipEntry),
      List.Forall₂ (fun pq o => analyzePair tail df pq.1 pq.2 = .ok o) pairs outcomes ∧
      analyzeAll tail df pairs =
        .ok ⟨outcomes.filterMap Sum.getLeft?, outcomes.filterMap Sum.getRight?⟩ := by
  induction pairs with
  | nil => exact ⟨[], .nil, rfl⟩
  | cons pq rest ih =>
    obtain ⟨p, q⟩ := pq
    obtain ⟨hh1, hh2⟩ := h (p, q) (List.mem_cons_self _ _)
    obtain ⟨o, ho⟩ := analyzePair_isOk tail df p q hh1 hh2
    obtain ⟨outs, hf, ha⟩ := ih fun x hx => h x (List.mem_cons_of_mem _ hx)
    refine ⟨o :: outs, List.Forall₂.cons ho hf, ?_⟩
    cases o with
    | inl r =>
      rw [analyzeAll_cons_result tail df p q rest r _ ho ha]
      simp [List.filterMap_cons]
    | inr s =>
      rw [analyzeAll_cons_skip tail df p q rest s _ ho ha]
      simp [List.filterMap_cons]

lemma compare_unfold_ok (tail : ℝ → ℕ → ℝ) (df : Dataset)
    (preNames postNames : List String)
    (h1 : preNames ≠ []) (h2 : postNames ≠ []) (h3 : preNames.length = postNames.length) :
    compare tail df preNames postNames = analyzeAll tail df (preNames.zip postNames) := by
  rw [compare, if_neg]
  push_neg
  exact ⟨h1, h2, h3⟩

lemma forall₂_exists_of_mem_right {α β : Type} {R : α → β → Prop} {l1 : List α} {l2 : List β}
    (h : List.Forall₂ R l1 l2) {b : β} (hb : b ∈ l2) : ∃ a ∈ l1, R a b := by
  induction h with
  | nil => cases hb
  | cons hr _ ih =>
    rcases List.mem_cons.mp hb with rfl | hb'
    · exact ⟨_, List.mem_cons_self _ _, hr⟩
    · obtain ⟨a, ha, har⟩ := ih hb'
      exact ⟨a, List.mem_cons_of_mem _ ha, har⟩

end App

namespace App

lemma analyzeAll_err_of_bad (tail : ℝ → ℕ → ℝ) (df : Dataset)
    (pairs : List (String × String))
    (hbad : ∃ pq ∈ pairs, getCol df pq.1 = none ∨ getCol df pq.2 = none) :
    ∃ n, getCol df n = none ∧ analyzeAll tail df pairs = .error (.unknownColumn n) := by
  induction pairs with
  | nil => simp at hbad
  | cons pq rest ih =>
    obtain ⟨p, q⟩ := pq
    cases hgp : getCol df p with
    | none =>
      refine ⟨p, hgp, ?_⟩
      rw [analyzeAll, analyzePair_err_pre tail df p q hgp]
      rfl
    | some pre =>
      cases hgq : getCol df q with
      | none =>
        refine ⟨q, hgq, ?_⟩
        rw [analyzeAll, analyzePair_err_post tail df p q pre hgp hgq]
        rfl
      | some post =>
        have hrest : ∃ pq ∈ rest, getCol df pq.1 = none ∨ getCol df pq.2 = none := by
          obtain ⟨x, hx, hxbad⟩ := hbad
          rcases List.mem_cons.mp hx with rfl | hx'
          · rcases hxbad with hc | hc
            · rw [hgp] at hc
              cases hc
            · rw [hgq] at hc
              cases hc
          · exact ⟨x, hx', hxbad⟩
        obtain ⟨n, hn, ha⟩ := ih hrest
        obtain ⟨o, ho⟩ := analyzePair_isOk tail df p q
          (by rw [hgp]; rfl) (by rw [hgq]; rfl)
        refine ⟨n, hn, ?_⟩
        rw [analyzeAll, ho, ha]
        cases o <;> rfl

lemma analyzeAll_ok_signif (tail : ℝ → ℕ → ℝ) (df : Dataset)
    (pairs : List (String × String)) (out : CompareOutput)
    (h : analyzeAll tail df pairs = .ok out) :
    ∀ r ∈ out.results, r.signif = sigLabel r.pValue := by
  induction pairs generalizing out with
  | nil =>
    rw [analyzeAll] at h
    injection h with h
    subst h
    intro r hr
    cases hr
  | cons pq rest ih =>
    obtain ⟨p, q⟩ := pq
    rw [analyzeAll] at h
    cases ho : analyzePair tail df p q with
    | error e =>
      rw [ho] at h
      cases h
    | ok o =>
      rw [ho] at h
      cases ha : analyzeAll tail df rest with
      | error e =>
        rw [ha] at h
        cases o <;> cases h
      | ok out' =>
        rw [ha] at h
        cases o with
        | inl r0 =>
          injection h with h
          subst h
          intro r hr
          rcases List.mem_cons.mp hr with rfl | hr'
          · exact (analyzePair_inl_fields tail df p q r ho).2.2
          · exact ih out' ha r hr'
        | inr s0 =>
          injection h with h
          subst h
          intro r hr
          exact ih out' ha r hr

lemma diffs_self_eq_replicate (xs : List ℚ) :
    diffs xs xs = List.replicate xs.length 0 := by
  induction xs with
  | nil => rfl
  | cons x xs ih =>
    simp only [diffs] at ih
    simp only [diffs, List.zipWith_cons_cons, sub_self, List.length_cons, List.replicate_succ]
    exact congrArg (List.cons 0) ih

lemma sampleVar_replicate_zero (n : ℕ) : sampleVar (List.replicate n (0 : ℚ)) = 0 := by
  have hm : qmean (List.replicate n (0 : ℚ)) = 0 := by
    simp [qmean, List.sum_replicate]
  simp [sampleVar, hm, List.sum_replicate]

lemma cleanPair_eq_filter (pre post : List (Option ℚ)) :
    cleanPair pre post =
      ((pre.zip post).filter fun r => r.1.isSome && r.2.isSome).map
        fun r => (r.1.getD 0, r.2.getD 0) := by
  rw [cleanPair]
  induction (pre.zip post) with
  | nil => rfl
  | cons r rest ih =>
    obtain ⟨a, b⟩ := r
    cases a <;> cases b <;>
      simp only [List.filterMap_cons, List.filter_cons, Option.isSome_some,
        Option.isSome_none, Bool.and_self, Bool.and_true, Bool.true_and,
        Bool.and_false, Bool.false_and, ite_true, ite_false, List.map_cons,
        Option.getD_some, ih] <;> rfl

lemma diffs_length (xs ys : List ℚ) (h : xs.length = ys.length) :
    (diffs xs ys).length = xs.length := by
  rw [diffs, List.length_zipWith, h, min_self]

lemma cleanPair_maps_length (pre post : List (Option ℚ)) :
    ((cleanPair pre post).map Prod.fst).length = ((cleanPair pre post).map Prod.snd).length := by
  simp

end App

namespace App

lemma sigLabel_iff (pv : PFloat) :
    (sigLabel pv = "p < .05" ↔ PFloat.Lt pv 0.05) ∧
    (sigLabel pv = "N.S." ↔ ¬ PFloat.Lt pv 0.05) := by
  cases pv with
  | nan => simp [sigLabel, PFloat.lt, PFloat.Lt]
  | val v => by_cases h : v < 0.05 <;> simp [sigLabel, PFloat.lt, PFloat.Lt, h]

end App

/-! ### Claim theorems -/

namespace App

/-- Claim C4: if the name lists are empty or of unequal length, `compare`
fails with `InvalidInputError` and the caller receives no results (no
partial output is produced). -/
theorem compare_invalid_input (tail : ℝ → ℕ → ℝ) (df : Dataset)
    (preNames postNames : List String)
    (h : (preNames = [] ∧ postNames = []) ∨ preNames.length ≠ postNames.length) :
    compare tail df preNames postNames = .error .invalidInput ∧
      ∀ out, compare tail df preNames postNames ≠ .ok out := by
  have herr : compare tail df preNames postNames = .error .invalidInput := by
    rw [compare, if_pos]
    rcases h with ⟨h1, _⟩ | h3
    · exact .inl h1
    · exact .inr (.inr h3)
  refine ⟨herr, fun out hout => ?_⟩
  rw [herr] at hout
  cases hout

/-- Witness for C4 at a concrete mismatched input: two pre-names, one
post-name. -/
theorem compare_invalid_input_witness :
    (((["a", "b"] : List String) = [] ∧ (["a"] : List String) = []) ∨
        (["a", "b"] : List String).length ≠ (["a"] : List String).length) ∧
      (compare (fun _ _ => (0 : ℝ)) [] ["a", "b"] ["a"] = .error .invalidInput ∧
        ∀ out, compare (fun _ _ => (0 : ℝ)) [] ["a", "b"] ["a"] ≠ .ok out) :=
  ⟨by decide, compare_invalid_input (fun _ _ => (0 : ℝ)) [] ["a", "b"] ["a"] (by decide)⟩

/-- Claim C1: for non-empty, equal-length name lists whose every name is
a column of the dataset, `compare` succeeds and produces per input pair
exactly one outcome — a result or a skip entry — in input order
(`Forall₂` pairs the i-th input pair with the i-th outcome); the results
list is the left projection and the skip list the right projection of
the outcome sequence, and their lengths sum to the number of pairs. -/
theorem compare_one_outcome_per_pair (tail : ℝ → ℕ → ℝ) (df : Dataset)
    (preNames postNames : List String)
    (h1 : preNames ≠ []) (h2 : postNames ≠ []) (h3 : preNames.length = postNames.length)
    (hcols : ∀ n ∈ preNames ++ postNames, (getCol df n).isSome) :
    ∃ outcomes : List (CompResult ⊕ SkipEntry),
      List.Forall₂ (fun pq o => analyzePair tail df pq.1 pq.2 = .ok o)
        (preNames.zip postNames) outcomes ∧
      compare tail df preNames postNames =
        .ok ⟨outcomes.filterMap Sum.getLeft?, outcomes.filterMap Sum.getRight?⟩ ∧
      (outcomes.filterMap Sum.getLeft?).length + (outcomes.filterMap Sum.getRight?).length
        = preNames.length := by
  have hc : ∀ pq ∈ preNames.zip postNames, (getCol df pq.1).isSome ∧ (getCol df pq.2).isSome := by
    intro pq hpq
    obtain ⟨hm1, hm2⟩ := List.of_mem_zip hpq
    exact ⟨hcols _ (List.mem_append.mpr (.inl hm1)), hcols _ (List.mem_append.mpr (.inr hm2))⟩
  obtain ⟨outs, hf, ha⟩ := analyzeAll_ok_of_cols tail df (preNames.zip postNames) hc
  refine ⟨outs, hf, ?_, ?_⟩
  · rw [compare_unfold_ok tail df preNames postNames h1 h2 h3, ha]
  · rw [length_filterMap_sum outs, ← hf.length_eq, List.length_zip, h3, min_self]

/-- Witness for C1: one pair with a single valid row, which is skipped;
the outcome count still equals the pair count. -/
theorem compare_one_outcome_per_pair_witness :
    ((["a"] : List String) ≠ [] ∧ (["a"] : List String) ≠ [] ∧
        (["a"] : List String).length = (["a"] : List String).length ∧
        ∀ n ∈ ["a"] ++ ["a"], (getCol [("a", [some 1])] n).isSome) ∧
      (∃ outcomes : List (CompResult ⊕ SkipEntry),
        List.Forall₂ (fun pq o => analyzePair (fun _ _ => (0 : ℝ)) [("a", [some 1])] pq.1 pq.2 = .ok o)
          ((["a"] : List String).zip ["a"]) outcomes ∧
        compare (fun _ _ => (0 : ℝ)) [("a", [some 1])] ["a"] ["a"] =
          .ok ⟨outcomes.filterMap Sum.getLeft?, outcomes.filterMap Sum.getRight?⟩ ∧
        (outcomes.filterMap Sum.getLeft?).length + (outcomes.filterMap Sum.getRight?).length
          = (["a"] : List String).length) :=
  ⟨⟨by decide, by decide, by decide, by decide⟩,
    compare_one_outcome_per_pair (fun _ _ => (0 : ℝ)) [("a", [some 1])] ["a"] ["a"]
      (by decide) (by decide) (by decide) (by decide)⟩

end App

namespace App

/-- Claim C2: a pair whose cleaned sample has fewer than 2 paired
observations yields no Comparison Result, is recorded in the
skipped-pairs side channel with reason "insufficient paired
observations", raises no error, and the remaining pairs are still
processed (outcome counts still sum to the pair count). -/
theorem compare_skips_insufficient (tail : ℝ → ℕ → ℝ) (df : Dataset)
    (preNames postNames : List String) (i : ℕ)
    (h1 : preNames ≠ []) (h2 : postNames ≠ []) (h3 : preNames.length = postNames.length)
    (hcols : ∀ n ∈ preNames ++ postNames, (getCol df n).isSome)
    (hi : i < preNames.length) (pre post : List (Option ℚ))
    (hp : getCol df (preNames.get ⟨i, hi⟩) = some pre)
    (hq : getCol df (postNames.get ⟨i, h3 ▸ hi⟩) = some post)
    (hins : (cleanPair pre post).length < 2) :
    ∃ out, compare tail df preNames postNames = .ok out ∧
      (⟨preNames.get ⟨i, hi⟩, postNames.get ⟨i, h3 ▸ hi⟩, insufficientMsg⟩ : SkipEntry)
        ∈ out.skipped ∧
      (∀ r ∈ out.results,
        ¬ (r.preName = preNames.get ⟨i, hi⟩ ∧ r.postName = postNames.get ⟨i, h3 ▸ hi⟩)) ∧
      out.results.length + out.skipped.length = preNames.length := by
  have hc : ∀ pq ∈ preNames.zip postNames, (getCol df pq.1).isSome ∧ (getCol df pq.2).isSome := by
    intro pq hpq
    obtain ⟨hm1, hm2⟩ := List.of_mem_zip hpq
    exact ⟨hcols _ (List.mem_append.mpr (.inl hm1)), hcols _ (List.mem_append.mpr (.inr hm2))⟩
  obtain ⟨outs, hf, ha⟩ := analyzeAll_ok_of_cols tail df (preNames.zip postNames) hc
  have hzl : (preNames.zip postNames).length = preNames.length := by
    rw [List.length_zip, h3, min_self]
  have hi' : i < (preNames.zip postNames).length := by omega
  have hpair : (preNames.zip postNames).get ⟨i, hi'⟩ =
      (preNames.get ⟨i, hi⟩, postNames.get ⟨i, h3 ▸ hi⟩) := by
    simp [List.getElem_zip]
  obtain ⟨hlen, hR⟩ := List.forall₂_iff_get.mp hf
  have hio : i < outs.length := by omega
  have hskip : analyzePair tail df (preNames.get ⟨i, hi⟩) (postNames.get ⟨i, h3 ▸ hi⟩) =
      .ok (.inr ⟨preNames.get ⟨i, hi⟩, postNames.get ⟨i, h3 ▸ hi⟩, insufficientMsg⟩) :=
    analyzePair_skip tail df _ _ pre post hp hq hins
  have hRi := hR i hi' hio
  rw [hpair] at hRi
  rw [hskip] at hRi
  injection hRi with hRi
  refine ⟨⟨outs.filterMap Sum.getLeft?, outs.filterMap Sum.getRight?⟩, ?_, ?_, ?_, ?_⟩
  · rw [compare_unfold_ok tail df preNames postNames h1 h2 h3, ha]
  · refine List.mem_filterMap.mpr ⟨outs.get ⟨i, hio⟩, List.get_mem outs i hio, ?_⟩
    rw [← hRi]
    rfl
  · rintro r hr ⟨hrp, hrq⟩
    obtain ⟨o, homem, hgl⟩ := List.mem_filterMap.mp hr
    cases o with
    | inr s => cases hgl
    | inl r0 =>
      rw [Sum.getLeft?_inl] at hgl
      injection hgl with hgl
      subst hgl
      obtain ⟨pq, hpqmem, hpq⟩ := forall₂_exists_of_mem_right hf homem
      obtain ⟨hn1, hn2, _⟩ := analyzePair_inl_fields tail df pq.1 pq.2 r0 hpq
      rw [hrp] at hn1
      rw [hrq] at hn2
      rw [← hn1, ← hn2] at hpq
      rw [analyzePair_skip tail df _ _ pre post hp hq hins] at hpq
      simp at hpq
  · simp only []
    rw [length_filterMap_sum outs, ← hlen, hzl]

/-- Witness for C2: the only pair has no complete row, so it is skipped
and the run succeeds with one skip entry and no result. -/
theorem compare_skips_insufficient_witness :
    ((["a"] : List String) ≠ [] ∧ (["b"] : List String) ≠ [] ∧
        getCol [("a", [some 1, none]), ("b", [none, some 2])] "a" = some [some 1, none] ∧
        getCol [("a", [some 1, none]), ("b", [none, some 2])] "b" = some [none, some 2] ∧
        (cleanPair [some 1, none] [none, some 2]).length < 2) ∧
      (∃ out, compare (fun _ _ => (0 : ℝ)) [("a", [some 1, none]), ("b", [none, some 2])]
          ["a"] ["b"] = .ok out ∧
        (⟨(["a"] : List String).get ⟨0, by decide⟩,
          (["b"] : List String).get ⟨0, by decide⟩, insufficientMsg⟩ : SkipEntry)
            ∈ out.skipped ∧
        (∀ r ∈ out.results,
          ¬ (r.preName = (["a"] : List String).get ⟨0, by decide⟩ ∧
             r.postName = (["b"] : List String).get ⟨0, by decide⟩)) ∧
        out.results.length + out.skipped.length = (["a"] : List String).length) :=
  ⟨⟨by decide, by decide, by decide, by decide, by decide⟩,
    compare_skips_insufficient (fun _ _ => (0 : ℝ))
      [("a", [some 1, none]), ("b", [none, some 2])] ["a"] ["b"] 0
      (by decide) (by decide) (by decide) (by decide) (by decide)
      [some 1, none] [none, some 2] (by decide) (by decide) (by decide)⟩

/-- Claim C5: if some requested name is not a column of the dataset,
`compare` fails with `UnknownColumnError` (for such a missing name) and
the whole call yields no output. -/
theorem compare_unknown_column (tail : ℝ → ℕ → ℝ) (df : Dataset)
    (preNames postNames : List String)
    (h1 : preNames ≠ []) (h2 : postNames ≠ []) (h3 : preNames.length = postNames.length)
    (hbad : ∃ n ∈ preNames ++ postNames, getCol df n = none) :
    ∃ n, getCol df n = none ∧
      compare tail df preNames postNames = .error (.unknownColumn n) ∧
      ∀ out, compare tail df preNames postNames ≠ .ok out := by
  have hzl : (preNames.zip postNames).length = preNames.length := by
    rw [List.length_zip, h3, min_self]
  have hpairbad : ∃ pq ∈ preNames.zip postNames,
      getCol df pq.1 = none ∨ getCol df pq.2 = none := by
    obtain ⟨n, hn, hnone⟩ := hbad
    rcases List.mem_append.mp hn with hn' | hn'
    · obtain ⟨⟨i, hi⟩, hget⟩ := List.mem_iff_get.mp hn'
      have hi' : i < (preNames.zip postNames).length := by omega
      refine ⟨(preNames.zip postNames).get ⟨i, hi'⟩, List.get_mem _ i hi', .inl ?_⟩
      have : ((preNames.zip postNames).get ⟨i, hi'⟩).1 = preNames.get ⟨i, hi⟩ := by
        simp [List.getElem_zip]
      rw [this, hget, hnone]
    · obtain ⟨⟨i, hi⟩, hget⟩ := List.mem_iff_get.mp hn'
      have hi' : i < (preNames.zip postNames).length := by omega
      refine ⟨(preNames.zip postNames).get ⟨i, hi'⟩, List.get_mem _ i hi', .inr ?_⟩
      have : ((preNames.zip postNames).get ⟨i, hi'⟩).2 = postNames.get ⟨i, hi⟩ := by
        simp [List.getElem_zip]
      rw [this, hget, hnone]
  obtain ⟨n, hn, ha⟩ := analyzeAll_err_of_bad tail df (preNames.zip postNames) hpairbad
  have herr : compare tail df preNames postNames = .error (.unknownColumn n) := by
    rw [compare_unfold_ok tail df preNames postNames h1 h2 h3, ha]
  refine ⟨n, hn, herr, fun out hout => ?_⟩
  rw [herr] at hout
  cases hout

/-- Witness for C5: the post-name "zz" is not a column. -/
theorem compare_unknown_column_witness :
    ((["a"] : List String) ≠ [] ∧ (["zz"] : List String) ≠ [] ∧
        (∃ n ∈ ["a"] ++ ["zz"], getCol [("a", [some 1, some 2])] n = none)) ∧
      (∃ n, getCol [("a", [some 1, some 2])] n = none ∧
        compare (fun _ _ => (0 : ℝ)) [("a", [some 1, some 2])] ["a"] ["zz"] =
          .error (.unknownColumn n) ∧
        ∀ out, compare (fun _ _ => (0 : ℝ)) [("a", [some 1, some 2])] ["a"] ["zz"] ≠ .ok out) :=
  ⟨⟨by decide, by decide, by decide⟩,
    compare_unknown_column (fun _ _ => (0 : ℝ)) [("a", [some 1, some 2])] ["a"] ["zz"]
      (by decide) (by decide) (by decide) (by decide)⟩

end App

namespace App

/-- Claim C6: a row survives `dropna` exactly when both values are
present — the cleaned sample is precisely the both-present rows of the
zipped columns, in order, with row-wise correspondence preserved — and
every reported statistic of a result (means, standard deviations, test
inputs) is computed from the cleaned sample only. -/
theorem dropna_excludes_missing_rows :
    (∀ pre post : List (Option ℚ),
      cleanPair pre post =
        ((pre.zip post).filter fun r => r.1.isSome && r.2.isSome).map
          fun r => (r.1.getD 0, r.2.getD 0)) ∧
    (∀ (tail : ℝ → ℕ → ℝ) (df : Dataset) (p q : String) (pre post : List (Option ℚ)),
      getCol df p = some pre → getCol df q = some post →
      ¬ (cleanPair pre post).length < 2 →
      analyzePair tail df p q =
        .ok (.inl ⟨p, q,
          qmean ((cleanPair pre post).map Prod.fst),
          qmean ((cleanPair pre post).map Prod.snd),
          sampleStd ((cleanPair pre post).map Prod.fst),
          sampleStd ((cleanPair pre post).map Prod.snd),
          (ttest_rel tail ((cleanPair pre post).map Prod.fst)
            ((cleanPair pre post).map Prod.snd)).1,
          (ttest_rel tail ((cleanPair pre post).map Prod.fst)
            ((cleanPair pre post).map Prod.snd)).2,
          sigLabel (ttest_rel tail ((cleanPair pre post).map Prod.fst)
            ((cleanPair pre post).map Prod.snd)).2⟩)) :=
  ⟨cleanPair_eq_filter,
   fun tail df p q pre post hp hq hn => analyzePair_result tail df p q pre post hp hq hn⟩

/-- Witness for C6, the spec's concrete scenario: a missing value in
one column for the third row; the cleaned sample drops that row, and
the reported pre-mean is the hand-computed mean (1+2)/2 = 3/2 that
excludes it. -/
theorem dropna_excludes_missing_rows_witness :
    (cleanPair [some 1, some 2, none] [some 3, some 5, some 9] =
      (([(some 1, some 3), (some 2, some 5), (none, some 9)] :
          List (Option ℚ × Option ℚ)).filter fun r => r.1.isSome && r.2.isSome).map
        (fun r => (r.1.getD 0, r.2.getD 0))) ∧
    (analyzePair (fun _ _ => (0 : ℝ)) [("a", [some 1, some 2, none]), ("b", [some 3, some 5, some 9])]
        "a" "b" =
      .ok (.inl ⟨"a", "b",
        qmean ((cleanPair [some 1, some 2, none] [some 3, some 5, some 9]).map Prod.fst),
        qmean ((cleanPair [some 1, some 2, none] [some 3, some 5, some 9]).map Prod.snd),
        sampleStd ((cleanPair [some 1, some 2, none] [some 3, some 5, some 9]).map Prod.fst),
        sampleStd ((cleanPair [some 1, some 2, none] [some 3, some 5, some 9]).map Prod.snd),
        (ttest_rel (fun _ _ => (0 : ℝ))
          ((cleanPair [some 1, some 2, none] [some 3, some 5, some 9]).map Prod.fst)
          ((cleanPair [some 1, some 2, none] [some 3, some 5, some 9]).map Prod.snd)).1,
        (ttest_rel (fun _ _ => (0 : ℝ))
          ((cleanPair [some 1, some 2, none] [some 3, some 5, some 9]).map Prod.fst)
          ((cleanPair [some 1, some 2, none] [some 3, some 5, some 9]).map Prod.snd)).2,
        sigLabel (ttest_rel (fun _ _ => (0 : ℝ))
          ((cleanPair [some 1, some 2, none] [some 3, some 5, some 9]).map Prod.fst)
          ((cleanPair [some 1, some 2, none] [some 3, some 5, some 9]).map Prod.snd)).2⟩)) ∧
    qmean ((cleanPair [some 1, some 2, none] [some 3, some 5, some 9]).map Prod.fst) = 3 / 2 :=
  ⟨dropna_excludes_missing_rows.1 [some 1, some 2, none] [some 3, some 5, some 9],
   dropna_excludes_missing_rows.2 (fun _ _ => (0 : ℝ))
     [("a", [some 1, some 2, none]), ("b", [some 3, some 5, some 9])] "a" "b"
     [some 1, some 2, none] [some 3, some 5, some 9] (by decide) (by decide) (by decide),
   by
     rw [show (cleanPair [some 1, some 2, none] [some 3, some 5, some 9]).map Prod.fst =
       [(1 : ℚ), 2] from by decide]
     norm_num [qmean]⟩

/-- Claim C3: for a cleaned sample with n ≥ 2 paired observations and
nonzero variance of the differences, the result's statistic is the
§4.1 formula t = mean(d) / (stddev(d) / √n) over d = pre − post on the
cleaned columns, its p-value is the two-sided Student-t tail (the
abstract `tail`) at t with n − 1 degrees of freedom, and the reported
means and standard deviations are the mean and sample standard
deviation of the cleaned pre and post columns. -/
theorem analyzePair_spec_formula (tail : ℝ → ℕ → ℝ) (df : Dataset) (p q : String)
    (pre post : List (Option ℚ))
    (hp : getCol df p = some pre) (hq : getCol df q = some post)
    (hn : 2 ≤ (cleanPair pre post).length)
    (hvar : sampleVar (diffs ((cleanPair pre post).map Prod.fst)
      ((cleanPair pre post).map Prod.snd)) ≠ 0) :
    ∃ r, analyzePair tail df p q = .ok (.inl r) ∧
      r.tStat = PFloat.val (specTStat ((cleanPair pre post).map Prod.fst)
        ((cleanPair pre post).map Prod.snd)) ∧
      r.pValue = PFloat.val (tail (specTStat ((cleanPair pre post).map Prod.fst)
        ((cleanPair pre post).map Prod.snd)) ((cleanPair pre post).length - 1)) ∧
      r.preMean = qmean ((cleanPair pre post).map Prod.fst) ∧
      r.postMean = qmean ((cleanPair pre post).map Prod.snd) ∧
      r.preStd = sampleStd ((cleanPair pre post).map Prod.fst) ∧
      r.postStd = sampleStd ((cleanPair pre post).map Prod.snd) := by
  have hn' : ¬ (cleanPair pre post).length < 2 := by omega
  have htt := ttest_rel_var_ne_zero tail ((cleanPair pre post).map Prod.fst)
    ((cleanPair pre post).map Prod.snd) hvar
  have hdl : (diffs ((cleanPair pre post).map Prod.fst)
      ((cleanPair pre post).map Prod.snd)).length = (cleanPair pre post).length := by
    rw [diffs_length _ _ (by simp), List.length_map]
  refine ⟨_, analyzePair_result tail df p q pre post hp hq hn', ?_, ?_, rfl, rfl, rfl, rfl⟩
  · show (ttest_rel tail ((cleanPair pre post).map Prod.fst)
      ((cleanPair pre post).map Prod.snd)).1 = _
    rw [htt]
  · show (ttest_rel tail ((cleanPair pre post).map Prod.fst)
      ((cleanPair pre post).map Prod.snd)).2 = _
    rw [htt, hdl]

/-- Witness for C3: pre = [10, 12] and post = [12, 13]; the cleaned
sample has n = 2 and difference variance 1/2 ≠ 0. -/
theorem analyzePair_spec_formula_witness :
    (getCol [("a", [some 10, some 12]), ("b", [some 12, some 13])] "a" = some [some 10, some 12] ∧
      getCol [("a", [some 10, some 12]), ("b", [some 12, some 13])] "b" = some [some 12, some 13] ∧
      2 ≤ (cleanPair [some 10, some 12] [some 12, some 13]).length ∧
      sampleVar (diffs ((cleanPair [some 10, some 12] [some 12, some 13]).map Prod.fst)
        ((cleanPair [some 10, some 12] [some 12, some 13]).map Prod.snd)) ≠ 0) ∧
    (∃ r, analyzePair (fun _ _ => (0 : ℝ))
        [("a", [some 10, some 12]), ("b", [some 12, some 13])] "a" "b" = .ok (.inl r) ∧
      r.tStat = PFloat.val (specTStat
        ((cleanPair [some 10, some 12] [some 12, some 13]).map Prod.fst)
        ((cleanPair [some 10, some 12] [some 12, some 13]).map Prod.snd)) ∧
      r.pValue = PFloat.val ((fun _ _ => (0 : ℝ)) (specTStat
        ((cleanPair [some 10, some 12] [some 12, some 13]).map Prod.fst)
        ((cleanPair [some 10, some 12] [some 12, some 13]).map Prod.snd))
        ((cleanPair [some 10, some 12] [some 12, some 13]).length - 1)) ∧
      r.preMean = qmean ((cleanPair [some 10, some 12] [some 12, some 13]).map Prod.fst) ∧
      r.postMean = qmean ((cleanPair [some 10, some 12] [some 12, some 13]).map Prod.snd) ∧
      r.preStd = sampleStd ((cleanPair [some 10, some 12] [some 12, some 13]).map Prod.fst) ∧
      r.postStd = sampleStd ((cleanPair [some 10, some 12] [some 12, some 13]).map Prod.snd)) := by
  have hvar : sampleVar (diffs ((cleanPair [some 10, some 12] [some 12, some 13]).map Prod.fst)
      ((cleanPair [some 10, some 12] [some 12, some 13]).map Prod.snd)) ≠ 0 := by
    rw [show (cleanPair [some 10, some 12] [some 12, some 13]).map Prod.fst =
      [(10 : ℚ), 12] from by decide]
    rw [show (cleanPair [some 10, some 12] [some 12, some 13]).map Prod.snd =
      [(12 : ℚ), 13] from by decide]
    rw [show diffs [(10 : ℚ), 12] [(12 : ℚ), 13] = [-2, -1] from by
      norm_num [diffs]]
    norm_num [sampleVar, qmean]
  exact ⟨⟨by decide, by decide, by decide, hvar⟩,
    analyzePair_spec_formula (fun _ _ => (0 : ℝ))
      [("a", [some 10, some 12]), ("b", [some 12, some 13])] "a" "b"
      [some 10, some 12] [some 12, some 13] (by decide) (by decide) (by decide) hvar⟩

/-- Claim C9: for a pair with at least 2 paired observations whose
cleaned pre and post columns are identical (zero difference
everywhere), the pipeline performs no uncontrolled division: it
deterministically returns a result with NaN statistic and p-value and
the not-significant label. -/
theorem analyzePair_zero_variance_deterministic (tail : ℝ → ℕ → ℝ) (df : Dataset)
    (p q : String) (pre post : List (Option ℚ))
    (hp : getCol df p = some pre) (hq : getCol df q = some post)
    (hn : 2 ≤ (cleanPair pre post).length)
    (hid : (cleanPair pre post).map Prod.fst = (cleanPair pre post).map Prod.snd) :
    ∃ r, analyzePair tail df p q = .ok (.inl r) ∧
      r.tStat = PFloat.nan ∧ r.pValue = PFloat.nan ∧ r.signif = "N.S." := by
  have hn' : ¬ (cleanPair pre post).length < 2 := by omega
  have hvar : sampleVar (diffs ((cleanPair pre post).map Prod.fst)
      ((cleanPair pre post).map Prod.snd)) = 0 := by
    rw [← hid, diffs_self_eq_replicate, sampleVar_replicate_zero]
  have htt := ttest_rel_var_zero tail ((cleanPair pre post).map Prod.fst)
    ((cleanPair pre post).map Prod.snd) hvar
  refine ⟨_, analyzePair_result tail df p q pre post hp hq hn', ?_, ?_, ?_⟩
  · show (ttest_rel tail ((cleanPair pre post).map Prod.fst)
      ((cleanPair pre post).map Prod.snd)).1 = _
    rw [htt]
  · show (ttest_rel tail ((cleanPair pre post).map Prod.fst)
      ((cleanPair pre post).map Prod.snd)).2 = _
    rw [htt]
  · show sigLabel (ttest_rel tail ((cleanPair pre post).map Prod.fst)
      ((cleanPair pre post).map Prod.snd)).2 = _
    rw [htt]
    rfl

/-- Witness for C9: both columns are [1, 2], so every difference is 0. -/
theorem analyzePair_zero_variance_deterministic_witness :
    (getCol [("a", [some 1, some 2]), ("b", [some 1, some 2])] "a" = some [some 1, some 2] ∧
      getCol [("a", [some 1, some 2]), ("b", [some 1, some 2])] "b" = some [some 1, some 2] ∧
      2 ≤ (cleanPair [some 1, some 2] [some 1, some 2]).length ∧
      (cleanPair [some 1, some 2] [some 1, some 2]).map Prod.fst =
        (cleanPair [some 1, some 2] [some 1, some 2]).map Prod.snd) ∧
    (∃ r, analyzePair (fun _ _ => (0 : ℝ))
        [("a", [some 1, some 2]), ("b", [some 1, some 2])] "a" "b" = .ok (.inl r) ∧
      r.tStat = PFloat.nan ∧ r.pValue = PFloat.nan ∧ r.signif = "N.S.") :=
  ⟨⟨by decide, by decide, by decide, by decide⟩,
    analyzePair_zero_variance_deterministic (fun _ _ => (0 : ℝ))
      [("a", [some 1, some 2]), ("b", [some 1, some 2])] "a" "b"
      [some 1, some 2] [some 1, some 2] (by decide) (by decide) (by decide) (by decide)⟩

/-- Claim C10 (implicit): whenever the paired t-test yields a NaN
p-value for a pair with at least 2 paired observations, the pipeline
still emits a Comparison Result — no skip, no error — whose statistic
and p-value are NaN and whose significance field is the
not-significant label "N.S.", because the comparison NaN < 0.05 is
false. -/
theorem analyzePair_nan_pvalue_result (tail : ℝ → ℕ → ℝ) (df : Dataset)
    (p q : String) (pre post : List (Option ℚ))
    (hp : getCol df p = some pre) (hq : getCol df q = some post)
    (hn : 2 ≤ (cleanPair pre post).length)
    (hnan : (ttest_rel tail ((cleanPair pre post).map Prod.fst)
      ((cleanPair pre post).map Prod.snd)).2 = PFloat.nan) :
    ∃ r, analyzePair tail df p q = .ok (.inl r) ∧
      r.tStat = PFloat.nan ∧ r.pValue = PFloat.nan ∧ r.signif = "N.S." ∧
      PFloat.lt PFloat.nan 0.05 = false := by
  have hn' : ¬ (cleanPair pre post).length < 2 := by omega
  have hvar : sampleVar (diffs ((cleanPair pre post).map Prod.fst)
      ((cleanPair pre post).map Prod.snd)) = 0 := by
    by_contra hv
    rw [ttest_rel_var_ne_zero tail _ _ hv] at hnan
    cases hnan
  have htt := ttest_rel_var_zero tail ((cleanPair pre post).map Prod.fst)
    ((cleanPair pre post).map Prod.snd) hvar
  refine ⟨_, analyzePair_result tail df p q pre post hp hq hn', ?_, ?_, ?_, rfl⟩
  · show (ttest_rel tail ((cleanPair pre post).map Prod.fst)
      ((cleanPair pre post).map Prod.snd)).1 = _
    rw [htt]
  · show (ttest_rel tail ((cleanPair pre post).map Prod.fst)
      ((cleanPair pre post).map Prod.snd)).2 = _
    rw [htt]
  · show sigLabel (ttest_rel tail ((cleanPair pre post).map Prod.fst)
      ((cleanPair pre post).map Prod.snd)).2 = _
    rw [htt]
    rfl

/-- Witness for C10: identical columns [1, 2] make the modelled t-test
return a NaN p-value. -/
theorem analyzePair_nan_pvalue_result_witness :
    (getCol [("a", [some 1, some 2]), ("b", [some 1, some 2])] "b" = some [some 1, some 2] ∧
      2 ≤ (cleanPair [some 1, some 2] [some 1, some 2]).length ∧
      (ttest_rel (fun _ _ => (1 : ℝ)) ((cleanPair [some 1, some 2] [some 1, some 2]).map Prod.fst)
        ((cleanPair [some 1, some 2] [some 1, some 2]).map Prod.snd)).2 = PFloat.nan) ∧
    (∃ r, analyzePair (fun _ _ => (1 : ℝ))
        [("a", [some 1, some 2]), ("b", [some 1, some 2])] "a" "b" = .ok (.inl r) ∧
      r.tStat = PFloat.nan ∧ r.pValue = PFloat.nan ∧ r.signif = "N.S." ∧
      PFloat.lt PFloat.nan 0.05 = false) := by
  have hvar : sampleVar (diffs ((cleanPair [some 1, some 2] [some 1, some 2]).map Prod.fst)
      ((cleanPair [some 1, some 2] [some 1, some 2]).map Prod.snd)) = 0 := by
    rw [show ((cleanPair [some 1, some 2] [some 1, some 2]).map Prod.snd) =
      (cleanPair [some 1, some 2] [some 1, some 2]).map Prod.fst from by decide]
    rw [diffs_self_eq_replicate, sampleVar_replicate_zero]
  have hnan : (ttest_rel (fun _ _ => (1 : ℝ))
      ((cleanPair [some 1, some 2] [some 1, some 2]).map Prod.fst)
      ((cleanPair [some 1, some 2] [some 1, some 2]).map Prod.snd)).2 = PFloat.nan := by
    rw [ttest_rel_var_zero _ _ _ hvar]
  exact ⟨⟨by decide, by decide, hnan⟩,
    analyzePair_nan_pvalue_result (fun _ _ => (1 : ℝ))
      [("a", [some 1, some 2]), ("b", [some 1, some 2])] "a" "b"
      [some 1, some 2] [some 1, some 2] (by decide) (by decide) (by decide) hnan⟩

end App

namespace App

/-- Claim C7: every Comparison Result carries the significant label
"p < .05" exactly when its p-value is strictly below the fixed
threshold 0.05 (a NaN p-value never compares below it), and the
not-significant label "N.S." otherwise. -/
theorem compare_signif_threshold (tail : ℝ → ℕ → ℝ) (df : Dataset)
    (preNames postNames : List String) (out : CompareOutput)
    (h : compare tail df preNames postNames = .ok out) :
    ∀ r ∈ out.results,
      (r.signif = "p < .05" ↔ PFloat.Lt r.pValue 0.05) ∧
      (r.signif = "N.S." ↔ ¬ PFloat.Lt r.pValue 0.05) := by
  intro r hr
  have hsig : r.signif = sigLabel r.pValue := by
    rw [compare] at h
    split at h
    · cases h
    · exact analyzeAll_ok_signif tail df _ out h r hr
  rw [hsig]
  exact sigLabel_iff r.pValue

/-- Witness for C7: a run whose single result has a NaN p-value, hence
label "N.S." and no significance. -/
theorem compare_signif_threshold_witness :
    (compare (fun _ _ => (0 : ℝ)) [("a", [some 1, some 2])] ["a"] ["a"] =
      .ok ⟨[⟨"a", "a", qmean [1, 2], qmean [1, 2], sampleStd [1, 2], sampleStd [1, 2],
        PFloat.nan, PFloat.nan, "N.S."⟩], []⟩) ∧
    (∀ r ∈ (⟨[⟨"a", "a", qmean [1, 2], qmean [1, 2], sampleStd [1, 2], sampleStd [1, 2],
        PFloat.nan, PFloat.nan, "N.S."⟩], []⟩ : CompareOutput).results,
      (r.signif = "p < .05" ↔ PFloat.Lt r.pValue 0.05) ∧
      (r.signif = "N.S." ↔ ¬ PFloat.Lt r.pValue 0.05)) := by
  have hvar : sampleVar (diffs ((cleanPair [some 1, some 2] [some 1, some 2]).map Prod.fst)
      ((cleanPair [some 1, some 2] [some 1, some 2]).map Prod.snd)) = 0 := by
    rw [show ((cleanPair [some 1, some 2] [some 1, some 2]).map Prod.snd) =
      (cleanPair [some 1, some 2] [some 1, some 2]).map Prod.fst from by decide]
    rw [diffs_self_eq_replicate, sampleVar_replicate_zero]
  have htt := ttest_rel_var_zero (fun _ _ => (0 : ℝ))
    ((cleanPair [some 1, some 2] [some 1, some 2]).map Prod.fst)
    ((cleanPair [some 1, some 2] [some 1, some 2]).map Prod.snd) hvar
  have hap : analyzePair (fun _ _ => (0 : ℝ)) [("a", [some 1, some 2])] "a" "a" =
      .ok (.inl ⟨"a", "a", qmean [1, 2], qmean [1, 2], sampleStd [1, 2], sampleStd [1, 2],
        PFloat.nan, PFloat.nan, "N.S."⟩) := by
    rw [analyzePair_result (fun _ _ => (0 : ℝ)) [("a", [some 1, some 2])] "a" "a"
      [some 1, some 2] [some 1, some 2] (by decide) (by decide) (by decide), htt]
    rfl
  have hcomp : compare (fun _ _ => (0 : ℝ)) [("a", [some 1, some 2])] ["a"] ["a"] =
      .ok ⟨[⟨"a", "a", qmean [1, 2], qmean [1, 2], sampleStd [1, 2], sampleStd [1, 2],
        PFloat.nan, PFloat.nan, "N.S."⟩], []⟩ := by
    rw [compare_unfold_ok (fun _ _ => (0 : ℝ)) [("a", [some 1, some 2])] ["a"] ["a"]
      (by decide) (by decide) (by decide)]
    exact analyzeAll_cons_result (fun _ _ => (0 : ℝ)) [("a", [some 1, some 2])] "a" "a"
      [] _ ⟨[], []⟩ hap rfl
  exact ⟨hcomp, compare_signif_threshold (fun _ _ => (0 : ℝ)) [("a", [some 1, some 2])]
    ["a"] ["a"] _ hcomp⟩

end App

namespace App

/-- Claim C8, the spec's concrete scenario: for pre1 = [10,12,14,16]
and post1 = [12,13,15,20], `compare` returns exactly one Comparison
Result with pre-mean 13, post-mean 15, n = 4 paired observations, the
§4.1 statistic t = −2√2 with the p-value taken from the two-sided
Student-t tail at t with 3 degrees of freedom, and a significance
label obtained by comparing that p-value with 0.05. -/
theorem compare_concrete_scenario (tail : ℝ → ℕ → ℝ) :
    ∃ r, compare tail [("pre1", [some 10, some 12, some 14, some 16]),
        ("post1", [some 12, some 13, some 15, some 20])] ["pre1"] ["post1"] = .ok ⟨[r], []⟩ ∧
      r.preMean = 13 ∧ r.postMean = 15 ∧
      (cleanPair [some 10, some 12, some 14, some 16]
        [some 12, some 13, some 15, some 20]).length = 4 ∧
      r.tStat = PFloat.val (specTStat [10, 12, 14, 16] [12, 13, 15, 20]) ∧
      specTStat [10, 12, 14, 16] [12, 13, 15, 20] = -(2 * Real.sqrt 2) ∧
      r.pValue = PFloat.val (tail (specTStat [10, 12, 14, 16] [12, 13, 15, 20]) 3) ∧
      r.signif = sigLabel r.pValue := by
  have hf : (cleanPair [some 10, some 12, some 14, some 16]
      [some 12, some 13, some 15, some 20]).map Prod.fst = [(10 : ℚ), 12, 14, 16] := by decide
  have hs : (cleanPair [some 10, some 12, some 14, some 16]
      [some 12, some 13, some 15, some 20]).map Prod.snd = [(12 : ℚ), 13, 15, 20] := by decide
  have hvar : sampleVar (diffs [(10 : ℚ), 12, 14, 16] [(12 : ℚ), 13, 15, 20]) ≠ 0 := by
    rw [show diffs [(10 : ℚ), 12, 14, 16] [(12 : ℚ), 13, 15, 20] = [-2, -1, -1, -4] from by
      norm_num [diffs]]
    norm_num [sampleVar, qmean]
  have hts : specTStat [(10 : ℚ), 12, 14, 16] [(12 : ℚ), 13, 15, 20] = -(2 * Real.sqrt 2) := by
    rw [specTStat]
    rw [show diffs [(10 : ℚ), 12, 14, 16] [(12 : ℚ), 13, 15, 20] = [-2, -1, -1, -4] from by
      norm_num [diffs]]
    rw [show qmean [(-2 : ℚ), -1, -1, -4] = -2 from by norm_num [qmean]]
    rw [sampleStd]
    rw [show sampleVar [(-2 : ℚ), -1, -1, -4] = 2 from by norm_num [sampleVar, qmean]]
    rw [show (([(-2 : ℚ), -1, -1, -4].length : ℕ) : ℝ) = 4 from by norm_num]
    push_cast
    rw [show (4 : ℝ) = 2 ^ 2 from by norm_num, Real.sqrt_sq (by norm_num : (0 : ℝ) ≤ 2)]
    have h2 : Real.sqrt 2 * Real.sqrt 2 = 2 := Real.mul_self_sqrt (by norm_num)
    have hne : Real.sqrt 2 ≠ 0 := by
      intro h
      rw [h] at h2
      norm_num at h2
    field_simp
    nlinarith [h2]
  have htt := ttest_rel_var_ne_zero tail [(10 : ℚ), 12, 14, 16] [(12 : ℚ), 13, 15, 20] hvar
  have hap := analyzePair_result tail
    [("pre1", [some 10, some 12, some 14, some 16]),
     ("post1", [some 12, some 13, some 15, some 20])] "pre1" "post1"
    [some 10, some 12, some 14, some 16] [some 12, some 13, some 15, some 20]
    (by decide) (by decide) (by decide)
  rw [hf, hs, htt] at hap
  rw [show (diffs [(10 : ℚ), 12, 14, 16] [(12 : ℚ), 13, 15, 20]).length - 1 = 3 from by
    decide] at hap
  refine ⟨⟨"pre1", "post1", qmean [10, 12, 14, 16], qmean [12, 13, 15, 20],
    sampleStd [10, 12, 14, 16], sampleStd [12, 13, 15, 20],
    PFloat.val (specTStat [10, 12, 14, 16] [12, 13, 15, 20]),
    PFloat.val (tail (specTStat [10, 12, 14, 16] [12, 13, 15, 20]) 3),
    sigLabel (PFloat.val (tail (specTStat [10, 12, 14, 16] [12, 13, 15, 20]) 3))⟩,
    ?_, ?_, ?_, by decide, rfl, hts, rfl, rfl⟩
  · rw [compare_unfold_ok tail _ ["pre1"] ["post1"] (by decide) (by decide) (by decide)]
    exact analyzeAll_cons_result tail _ "pre1" "post1" [] _ ⟨[], []⟩ hap rfl
  · norm_num [qmean]
  · norm_num [qmean]

end App

namespace App

/-- Witness for C8 at a concrete tail function. -/
theorem compare_concrete_scenario_witness :
    ∃ r, compare (fun _ _ => (0 : ℝ)) [("pre1", [some 10, some 12, some 14, some 16]),
        ("post1", [some 12, some 13, some 15, some 20])] ["pre1"] ["post1"] = .ok ⟨[r], []⟩ ∧
      r.preMean = 13 ∧ r.postMean = 15 ∧
      (cleanPair [some 10, some 12, some 14, some 16]
        [some 12, some 13, some 15, some 20]).length = 4 ∧
      r.tStat = PFloat.val (specTStat [10, 12, 14, 16] [12, 13, 15, 20]) ∧
      specTStat [10, 12, 14, 16] [12, 13, 15, 20] = -(2 * Real.sqrt 2) ∧
      r.pValue = PFloat.val ((fun _ _ => (0 : ℝ))
        (specTStat [10, 12, 14, 16] [12, 13, 15, 20]) 3) ∧
      r.signif = sigLabel r.pValue :=
  compare_concrete_scenario (fun _ _ => (0 : ℝ))

end App
